import Mathlib

/-!
Verification of the ddac accounting application's company-data
synchronization and categorization core.

The repository contains two revisions of `src/context/CompanyContext.tsx`
(files `part_004` and `part_005`); the later revision (`part_005`) is the
one the specification describes (it repairs the accounts field inside the
company-data subscription callback and preserves the companies list when
offline), so the definitions below embed `part_005`, with the places where
`part_004` differs noted in comments.

Remote documents are modelled as a dynamic JSON-like value so that the
defensive normalization (`Array.isArray(x) ? x : []` and friends) is
faithful to the source, including its behaviour on missing, null, and
non-array fields.
-/

namespace Ddac

/-- Dynamic document values, mirroring the JavaScript values a remote
document snapshot can contain. -/
inductive Json where
  | null : Json
  | bool : Bool → Json
  | num : Int → Json
  | str : String → Json
  | arr : List Json → Json
  | obj : List (String × Json) → Json

/-- JavaScript property access `v.k`: defined only on objects, `undefined`
(here `none`) otherwise. -/
def getField : Json → String → Option Json
  | .obj fields, k => fields.lookup k
  | _, _ => none

/-- Optional-chained access `v?.k` on a value that may itself be absent. -/
def getFieldOpt (v : Option Json) (k : String) : Option Json :=
  match v with
  | some j => getField j k
  | none => none

/-- JavaScript truthiness of a value. -/
def Json.truthy : Json → Bool
  | .null => false
  | .bool b => b
  | .num n => n != 0
  | .str s => s != ""
  | .arr _ => true
  | .obj _ => true

/-- The JavaScript `v || d` coalescing used for `overview` and `zealCheck`
(`undefined`, `null` and other falsy values fall back to the default). -/
def orDefault (v : Option Json) (d : Json) : Json :=
  match v with
  | some j => if j.truthy then j else d
  | none => d

/-- The coalescing `Array.isArray(x) ? x : []` applied to a possibly-missing field
(part_005 lines 182, 187-191; same in part_004). -/
def arrOrEmpty (v : Option Json) : Json :=
  match v with
  | some (.arr xs) => .arr xs
  | _ => .arr []

/-- The canonical default Uncategorized account
(part_005 lines 38-49, identical in part_004 lines 40-51). -/
def defaultUncategorizedAccount : Json :=
  .obj [
    ("id", .str "uncategorized-default"),
    ("accountNumber", .str "00000"),
    ("accountName", .str "Uncategorized"),
    ("accountType", .str "Other"),
    ("category", .str "Other"),
    ("description", .str "Default account for uncategorized transactions"),
    ("balance", .num 0),
    ("isActive", .bool true),
    ("version", .str "default"),
    ("subtype", .null)]

/-- The test `acc.accountNumber === '00000'` from the source. -/
def isUncatRecord (acc : Json) : Bool :=
  match getField acc "accountNumber" with
  | some (.str s) => s == "00000"
  | _ => false

/-- Number of records with account number "00000" in a sequence. -/
def countUncat (xs : List Json) : Nat :=
  xs.countP isUncatRecord

/-- The test `accounts.some(acc => acc.accountNumber === '00000')`. -/
def hasUncat (xs : List Json) : Bool :=
  xs.any isUncatRecord

/-- Normalization of the incoming `accounts` field in the part_005
company-data subscription callback (lines 183-186): a non-array becomes
the singleton default; an array lacking a "00000" record gets the default
prepended.  (The part_004 revision, lines 186, omits the repair: an array
is passed through unchanged even when it lacks a "00000" record.) -/
def normalizeAccounts (v : Option Json) : List Json :=
  match v with
  | some (.arr xs) => if hasUncat xs then xs else defaultUncategorizedAccount :: xs
  | _ => [defaultUncategorizedAccount]

/-- The normalization performed by the company-data subscription callback
(part_005 lines 181-208) on an incoming remote document: every expected
collection field is coalesced to an array, the accounts field is repaired,
and `overview` / `zealCheck` fall back to defaults. -/
def normalizeCompanyData (data : Json) : Json :=
  .obj [
    ("transactions", arrOrEmpty (getField data "transactions")),
    ("accounts", .arr (normalizeAccounts (getField data "accounts"))),
    ("categoryRules", arrOrEmpty (getField data "categoryRules")),
    ("customers", arrOrEmpty (getField data "customers")),
    ("vendors", arrOrEmpty (getField data "vendors")),
    ("invoices", arrOrEmpty (getField data "invoices")),
    ("bankAccounts", arrOrEmpty (getField data "bankAccounts")),
    ("payroll", .obj [
      ("employees", arrOrEmpty (getFieldOpt (getField data "payroll") "employees")),
      ("contractors", arrOrEmpty (getFieldOpt (getField data "payroll") "contractors")),
      ("payrollRuns", arrOrEmpty (getFieldOpt (getField data "payroll") "payrollRuns"))]),
    ("workManagement", .obj [
      ("tasks", arrOrEmpty (getFieldOpt (getField data "workManagement") "tasks")),
      ("documents", arrOrEmpty (getFieldOpt (getField data "workManagement") "documents")),
      ("overview", orDefault (getFieldOpt (getField data "workManagement") "overview") (.obj []))]),
    ("tools", .obj [
      ("zealCheck", orDefault (getFieldOpt (getField data "tools") "zealCheck")
        (.obj [("documents", .arr []), ("webhookUrl", .str "")]))])]

/-- The provider's `initialCompanyData` constant (part_005 lines 51-75). -/
def initialCompanyData : Json :=
  .obj [
    ("transactions", .arr []),
    ("accounts", .arr [defaultUncategorizedAccount]),
    ("categoryRules", .arr []),
    ("customers", .arr []),
    ("vendors", .arr []),
    ("invoices", .arr []),
    ("bankAccounts", .arr []),
    ("payroll", .obj [
      ("employees", .arr []),
      ("contractors", .arr []),
      ("payrollRuns", .arr [])]),
    ("workManagement", .obj [
      ("tasks", .arr []),
      ("documents", .arr []),
      ("overview", .obj [])]),
    ("tools", .obj [
      ("zealCheck", .obj [("documents", .arr []), ("webhookUrl", .str "")])])]

/-- The accounts list of a normalized company-data object. -/
def accountsOf (j : Json) : List Json :=
  match getField j "accounts" with
  | some (.arr xs) => xs
  | _ => []

/-- A Company record (part_005 lines 237-244; timestamps are taken as an
opaque string parameter). -/
structure Company where
  id : String
  userId : String
  name : String
  createdAt : String
  lastAccessed : String
  bankAccounts : List Json

/-- The provider's observable React state: companies list, selection,
company data snapshot, loading flag and shared error field
(part_005 lines 79-86; loading starts true, error starts null). -/
structure CtxState where
  companies : List Company
  selectedId : Option String
  companyData : Json
  loading : Bool
  error : Option String

/-- The provider's initial state (part_005 lines 79-86). -/
def initialCtxState : CtxState :=
  { companies := [], selectedId := none, companyData := initialCompanyData,
    loading := true, error := none }

/-- The company-data subscription success callback
(part_005 lines 174-214): when the document snapshot exists, the
normalized data replaces the snapshot, the error field is cleared and
loading ends; when it does not exist the callback returns without
touching any state.  (part_004 lines 181-183 behave the same way:
`if (!doc.exists()) return;`.) -/
def companyDataOnSnapshot (docExists : Bool) (data : Json) (st : CtxState) : CtxState :=
  if docExists then
    { st with companyData := normalizeCompanyData data, error := none, loading := false }
  else
    st

/-- The companies-list subscription error handler (part_005 lines
146-153): records the error, ends loading, and clears the local list
only when currently online.  (The part_004 revision, lines 156-161,
always clears the list.) -/
def companiesOnError (isOffline : Bool) (st : CtxState) : CtxState :=
  let st₁ := { st with error := some "Failed to load companies", loading := false }
  if !isOffline then { st₁ with companies := [] } else st₁

/-! ## The write path: `updateCompanyData` (part_005 lines 337-383) -/

/-- The persisted shape of a company-data document after the identifier
field has been destructured away (`const { id, ...dataToUpdate }`,
part_005 line 373). -/
structure CompanyDoc where
  transactions : List Json
  accounts : List Json
  categoryRules : List Json
  customers : List Json
  vendors : List Json
  invoices : List Json
  bankAccounts : List Json

/-- The current remote document read by `getDoc` inside
`updateCompanyData`; it may carry an `id` field. -/
structure StoredDoc where
  id : Option String
  transactions : List Json
  accounts : List Json
  categoryRules : List Json
  customers : List Json
  vendors : List Json
  invoices : List Json
  bankAccounts : List Json

/-- The partial payload `Partial<CompanyData & { id?: string }>` accepted
by `updateCompanyData`: each field is either absent or an array
(the `id` field either absent or a string). -/
structure UpdatePayload where
  id : Option String
  transactions : Option (List Json)
  accounts : Option (List Json)
  categoryRules : Option (List Json)
  customers : Option (List Json)
  vendors : Option (List Json)
  invoices : Option (List Json)
  bankAccounts : Option (List Json)

/-- A payload with no fields at all. -/
def emptyPayload : UpdatePayload :=
  { id := none, transactions := none, accounts := none, categoryRules := none,
    customers := none, vendors := none, invoices := none, bankAccounts := none }

/-- The accounts repair inside `updateCompanyData` (part_005 lines
354-360): a payload accounts array lacking a "00000" record gets the
default prepended. -/
def repairAccounts (xs : List Json) : List Json :=
  if hasUncat xs then xs else defaultUncategorizedAccount :: xs

/-- The resolution `const companyId = data.id || selectedId` (part_005 line 338):
JavaScript `||` falls through on the empty string as well. -/
def resolveCompanyId (payloadId selectedId : Option String) : Option String :=
  match payloadId with
  | some s => if s == "" then selectedId else some s
  | none => selectedId

/-- The `if (!companyId)` falsiness guard (part_005 line 339). -/
def isFalsyId : Option String → Bool
  | none => true
  | some s => s == ""

/-- The merged object `{ ...currentData, ...data, accounts:
updatedAccounts || currentData.accounts, bankAccounts }` built by
`updateCompanyData` (part_005 lines 351-370): a shallow spread of the
payload over the current document, with the repaired accounts (or the
stored ones when the payload has none) and the coalesced bankAccounts. -/
def mergeCompanyData (currentData : StoredDoc) (data : UpdatePayload) : StoredDoc :=
  { id := (match data.id with | some i => some i | none => currentData.id),
    transactions := data.transactions.getD currentData.transactions,
    accounts := (match data.accounts with
      | some xs => repairAccounts xs
      | none => currentData.accounts),
    categoryRules := data.categoryRules.getD currentData.categoryRules,
    customers := data.customers.getD currentData.customers,
    vendors := data.vendors.getD currentData.vendors,
    invoices := data.invoices.getD currentData.invoices,
    bankAccounts := data.bankAccounts.getD currentData.bankAccounts }

/-- The destructuring `const { id, ...dataToUpdate } = updatedData` (part_005 line 373). -/
def stripId (d : StoredDoc) : CompanyDoc :=
  { transactions := d.transactions, accounts := d.accounts,
    categoryRules := d.categoryRules, customers := d.customers,
    vendors := d.vendors, invoices := d.invoices, bankAccounts := d.bankAccounts }

/-- The remote environment seen by one `updateCompanyData` call: the
`getDoc` read may throw, find no document, or find one (in which case the
subsequent `updateDoc` either succeeds or throws). -/
inductive UpdateRemote where
  | fetchFailure : UpdateRemote
  | missing : UpdateRemote
  | present (current : StoredDoc) (writeOk : Bool) : UpdateRemote

/-- Operation `updateCompanyData` (part_005 lines 337-383, identical in part_004
lines 327-373).  Returns the final provider state, the document persisted
by `updateDoc` (if any), and the call's outcome (`Except.error` models a
rejected promise).  Note the source: when the read document does not
exist the `if (companyDoc.exists())` block is simply skipped — no write,
no error, no throw; only the `finally` block ends loading. -/
def updateCompanyData (data : UpdatePayload) (st : CtxState) (remote : UpdateRemote) :
    CtxState × Option CompanyDoc × Except String Unit :=
  let companyId := resolveCompanyId data.id st.selectedId
  if isFalsyId companyId then
    ({ st with error := some "No company selected" }, none, .ok ())
  else
    let st₁ := { st with loading := true, error := none }
    match remote with
    | .fetchFailure =>
        ({ st₁ with error := some "Failed to update company data", loading := false },
         none, .error "transport error")
    | .missing =>
        ({ st₁ with loading := false }, none, .ok ())
    | .present current writeOk =>
        if writeOk then
          ({ st₁ with loading := false },
           some (stripId (mergeCompanyData current data)), .ok ())
        else
          ({ st₁ with error := some "Failed to update company data", loading := false },
           none, .error "transport error")

/-! ## `selectCompany` (part_005 lines 263-335) -/

/-- The remote environment seen by one `selectCompany` call: the `getDoc`
existence check either finds the company document or not. -/
inductive SelectRemote where
  | missing : SelectRemote
  | present : SelectRemote

/-- Operation `selectCompany` (part_005 lines 263-335).  The call begins by setting
loading, clearing the error, tearing down the old subscription and
resetting the selection and data; an empty id just ends there.  A missing
document throws `Company not found`, which the catch block records as
`Failed to select company` before rethrowing; the `finally` block always
ends loading.  On success the new subscription is attached and the
selection is set (the success branch is summarised: it installs the
subscription handle and touches `lastAccessed`, which this model treats
as succeeding). -/
def selectCompany (id : String) (st : CtxState) (remote : SelectRemote) :
    CtxState × Except String Unit :=
  let st₁ := { st with
    loading := true, error := none, selectedId := none,
    companyData := initialCompanyData }
  if id == "" then
    ({ st₁ with loading := false }, .ok ())
  else
    match remote with
    | .missing =>
        ({ st₁ with error := some "Failed to select company", loading := false },
         .error "Company not found")
    | .present =>
        ({ st₁ with selectedId := some id, loading := false }, .ok ())

/-! ## `addCompany` (part_005 lines 227-261) -/

/-- The transform `name.toLowerCase().replace(/\s+/g, '-')` on the character list: each
maximal run of whitespace becomes a single hyphen.  The flag tracks
whether the previous character was part of a whitespace run. -/
def slugChars : Bool → List Char → List Char
  | _, [] => []
  | prevWs, c :: rest =>
    if c.isWhitespace then
      (if prevWs then [] else ['-']) ++ slugChars true rest
    else
      c.toLower :: slugChars false rest

/-- The identifier slug derived from the company name. -/
def slugify (name : String) : String :=
  String.mk (slugChars false name.toList)

/-- Operation `addCompany` (part_005 lines 227-261, identical in part_004 lines
213-247).  `user` is the authenticated user's uid (if any), `suffix` the
random uuid fragment, `now` the current timestamp string.  Returns the
final state, the remote `setDoc` write (the new Company merged with
`initialCompanyData`) if one happened, and the returned identifier. -/
def addCompany (user : Option String) (name suffix now : String) (st : CtxState) :
    CtxState × Option (Company × Json) × Option String :=
  match user with
  | none => ({ st with error := some "User not authenticated" }, none, none)
  | some uid =>
    let companyId := slugify name ++ "-" ++ suffix
    let newCompany : Company :=
      { id := companyId, userId := uid, name := name,
        createdAt := now, lastAccessed := now, bankAccounts := [] }
    ({ st with
        loading := false, error := none,
        companies := st.companies ++ [newCompany] },
     some (newCompany, initialCompanyData), some companyId)

/-! ## Category rules (part_000 lines 214-254 and spec §4.1) -/

/-- A CategoryRule: identifier, target category, list of text patterns. -/
structure CategoryRule where
  id : String
  category : String
  patterns : List String
deriving DecidableEq

/-- Outcome of `handleAddToRules`. -/
inductive AddRuleResult where
  | ignored : AddRuleResult
  | duplicate : AddRuleResult
  | updated (rules : List CategoryRule) : AddRuleResult
deriving DecidableEq

/-- Handler `handleAddToRules` (part_000 lines 214-254): a guard ignores empty
text or category; if a rule for the category exists and already holds the
pattern (exact, case-sensitive `includes` check) the operation reports a
duplicate and mutates nothing; if it exists and the pattern is new, every
rule for that category gets the pattern appended; otherwise one new rule
is created with the supplied fresh identifier (`rule-${Date.now()}` in
the source) and the singleton pattern list. -/
def handleAddToRules (currentRules : List CategoryRule)
    (selectedText selectedCategory freshId : String) : AddRuleResult :=
  if selectedText == "" || selectedCategory == "" then
    .ignored
  else
    match currentRules.find? (fun r => r.category == selectedCategory) with
    | some existingRule =>
      if existingRule.patterns.contains selectedText then
        .duplicate
      else
        .updated (currentRules.map (fun r =>
          if r.category == selectedCategory then
            { r with patterns := r.patterns ++ [selectedText] }
          else r))
    | none =>
      .updated (currentRules ++
        [{ id := freshId, category := selectedCategory, patterns := [selectedText] }])

/-! ## The category rule matcher (spec §4.1, §8) -/

/-- Whether the first character list begins the second. -/
def beginsWith : List Char → List Char → Bool
  | [], _ => true
  | _ :: _, [] => false
  | a :: as, b :: bs => a == b && beginsWith as bs

/-- Whether the first character list occurs contiguously in the second. -/
def occursIn (needle : List Char) : List Char → Bool
  | [] => needle.isEmpty
  | b :: bs => beginsWith needle (b :: bs) || occursIn needle bs

/-- Lower-cased character list of a string. -/
def lowerChars (s : String) : List Char :=
  s.toList.map Char.toLower

/-- Case-insensitive substring test between a description and a pattern. -/
def containsCI (desc pat : String) : Bool :=
  occursIn (lowerChars pat) (lowerChars desc)

/-- Modelled from the spec: whether one rule matches a description — its
pattern set contains a case-insensitive substring of the description
(§4.1).  The matcher itself is not among the source files (only rule
creation is), so this follows the specification's words. -/
def ruleMatches (desc : String) (r : CategoryRule) : Bool :=
  r.patterns.any (fun pat => containsCI desc pat)

/-- Modelled from the spec: the category rule matcher (§4.1) — the first
rule in iteration order whose pattern set matches wins; no match yields
no category.  The matcher itself is not among the source files. -/
def matchCategory (desc : String) : List CategoryRule → Option String
  | [] => none
  | r :: rest => if ruleMatches desc r then some r.category else matchCategory desc rest

/-! ## Sample values used by concrete witnesses -/

/-- A concrete remote document for witness instantiations. -/
def sampleStoredDoc : StoredDoc :=
  { id := some "c1", transactions := [.str "t1"],
    accounts := [defaultUncategorizedAccount], categoryRules := [],
    customers := [], vendors := [], invoices := [], bankAccounts := [.str "b1"] }

/-- A concrete partial payload for witness instantiations. -/
def samplePayload : UpdatePayload :=
  { id := none, transactions := some [.str "t2"],
    accounts := some [.obj [("accountNumber", .str "11111")]],
    categoryRules := some [], customers := none, vendors := none,
    invoices := none, bankAccounts := some [.str "b2"] }

/-- A provider state with a company selected. -/
def sampleState : CtxState :=
  { initialCtxState with selectedId := some "c1" }

/-! ## Helper lemmas -/

theorem isUncat_default : isUncatRecord defaultUncategorizedAccount = true := rfl

theorem countUncat_cons (a : Json) (xs : List Json) :
    countUncat (a :: xs) = countUncat xs + (if isUncatRecord a then 1 else 0) := by
  simp [countUncat, List.countP_cons]

theorem countUncat_zero (xs : List Json) (h : hasUncat xs = false) :
    countUncat xs = 0 := by
  induction xs with
  | nil => rfl
  | cons a as ih =>
    rw [hasUncat, List.any_cons, Bool.or_eq_false_iff] at h
    rw [countUncat_cons, ih h.2, h.1]
    rfl

theorem countUncat_pos (xs : List Json) (h : hasUncat xs = true) :
    1 ≤ countUncat xs := by
  induction xs with
  | nil => simp [hasUncat] at h
  | cons a as ih =>
    rw [hasUncat, List.any_cons, Bool.or_eq_true] at h
    rw [countUncat_cons]
    rcases h with h | h
    · simp [h]
    · have := ih h
      omega

theorem accountsOf_normalize (data : Json) :
    accountsOf (normalizeCompanyData data) = normalizeAccounts (getField data "accounts") := rfl

theorem arrOrEmpty_exists (v : Option Json) :
    ∃ xs, some (arrOrEmpty v) = some (Json.arr xs) := by
  cases v with
  | none => exact ⟨[], rfl⟩
  | some j => cases j <;> exact ⟨_, rfl⟩

/-! ## Claim theorems -/

/-- C1 (counterexample): the claim says every hydration leaves exactly one
record with account number "00000", but a remote document whose accounts
array already holds two such records is hydrated with both kept: the
normalized accounts contain two "00000" records, not one. -/
theorem C1_counterexample :
    countUncat (accountsOf ((companyDataOnSnapshot true
        (.obj [("accounts", .arr [.obj [("accountNumber", .str "00000")],
                                  .obj [("accountNumber", .str "00000")]])])
        initialCtxState).companyData)) = 2 ∧
    ¬ countUncat (accountsOf ((companyDataOnSnapshot true
        (.obj [("accounts", .arr [.obj [("accountNumber", .str "00000")],
                                  .obj [("accountNumber", .str "00000")]])])
        initialCtxState).companyData)) = 1 := by
  exact ⟨by decide, by decide⟩

/-- C1 (amended): every document hydrated by the company-data subscription
has at least one "00000" record in its accounts — exactly one whenever the
incoming array had at most one — and when the incoming accounts array
lacked such a record the canonical default account is synthesized and
prepended, so it is positioned first. -/
theorem C1_amended (data : Json) (st : CtxState) (xs : List Json) :
    1 ≤ countUncat (accountsOf ((companyDataOnSnapshot true data st).companyData)) ∧
    (getField data "accounts" = some (.arr xs) → countUncat xs ≤ 1 →
      countUncat (accountsOf ((companyDataOnSnapshot true data st).companyData)) = 1) ∧
    (getField data "accounts" = some (.arr xs) → hasUncat xs = false →
      accountsOf ((companyDataOnSnapshot true data st).companyData) =
        defaultUncategorizedAccount :: xs) := by
  have hacc : accountsOf ((companyDataOnSnapshot true data st).companyData) =
      normalizeAccounts (getField data "accounts") := rfl
  refine ⟨?_, ?_, ?_⟩
  · rw [hacc]
    cases hv : getField data "accounts" with
    | none => decide
    | some j =>
      cases j with
      | arr ys =>
        rw [normalizeAccounts]
        cases hu : hasUncat ys with
        | true => simpa [hu] using countUncat_pos ys hu
        | false =>
          simp only [Bool.false_eq_true, if_false]
          rw [countUncat_cons, isUncat_default]
          simp
      | null => decide
      | bool b => exact (by decide : 1 ≤ countUncat [defaultUncategorizedAccount])
      | num n => exact (by decide : 1 ≤ countUncat [defaultUncategorizedAccount])
      | str s => exact (by decide : 1 ≤ countUncat [defaultUncategorizedAccount])
      | obj fs => exact (by decide : 1 ≤ countUncat [defaultUncategorizedAccount])
  · intro hv hle
    rw [hacc, hv, normalizeAccounts]
    cases hu : hasUncat xs with
    | true =>
      have := countUncat_pos xs hu
      simp only [hu, if_true]
      omega
    | false =>
      simp only [Bool.false_eq_true, if_false]
      rw [countUncat_cons, isUncat_default, countUncat_zero xs hu]
      simp
  · intro hv hu
    rw [hacc, hv, normalizeAccounts, hu]
    simp

/-- C1 (witness): the amended theorem applied to a concrete document whose
accounts array is empty. -/
theorem C1_amended_witness :
    1 ≤ countUncat (accountsOf ((companyDataOnSnapshot true
        (.obj [("accounts", .arr [])]) initialCtxState).companyData)) ∧
    countUncat (accountsOf ((companyDataOnSnapshot true
        (.obj [("accounts", .arr [])]) initialCtxState).companyData)) = 1 ∧
    accountsOf ((companyDataOnSnapshot true
        (.obj [("accounts", .arr [])]) initialCtxState).companyData) =
      defaultUncategorizedAccount :: [] := by
  have h := C1_amended (.obj [("accounts", .arr [])]) initialCtxState []
  exact ⟨h.1, h.2.1 rfl (by decide), h.2.2 rfl rfl⟩

/-- C4: for every incoming remote document, however partial or malformed,
the normalized company data has each expected collection field present and
bound to an array — the seven top-level collections and the nested payroll
and workManagement collections. -/
theorem C4_normalization_total (data : Json) :
    (∃ xs, getField (normalizeCompanyData data) "transactions" = some (Json.arr xs)) ∧
    (∃ xs, getField (normalizeCompanyData data) "accounts" = some (Json.arr xs)) ∧
    (∃ xs, getField (normalizeCompanyData data) "categoryRules" = some (Json.arr xs)) ∧
    (∃ xs, getField (normalizeCompanyData data) "customers" = some (Json.arr xs)) ∧
    (∃ xs, getField (normalizeCompanyData data) "vendors" = some (Json.arr xs)) ∧
    (∃ xs, getField (normalizeCompanyData data) "invoices" = some (Json.arr xs)) ∧
    (∃ xs, getField (normalizeCompanyData data) "bankAccounts" = some (Json.arr xs)) ∧
    (∃ xs, getFieldOpt (getField (normalizeCompanyData data) "payroll") "employees"
      = some (Json.arr xs)) ∧
    (∃ xs, getFieldOpt (getField (normalizeCompanyData data) "payroll") "contractors"
      = some (Json.arr xs)) ∧
    (∃ xs, getFieldOpt (getField (normalizeCompanyData data) "payroll") "payrollRuns"
      = some (Json.arr xs)) ∧
    (∃ xs, getFieldOpt (getField (normalizeCompanyData data) "workManagement") "tasks"
      = some (Json.arr xs)) ∧
    (∃ xs, getFieldOpt (getField (normalizeCompanyData data) "workManagement") "documents"
      = some (Json.arr xs)) := by
  refine ⟨?_, ⟨_, rfl⟩, ?_, ?_, ?_, ?_, ?_, ?_, ?_, ?_, ?_, ?_⟩ <;>
    exact arrOrEmpty_exists _

/-- C6: selecting a nonexistent company id fails with the thrown
`Company not found` error, leaves the selection unset with the default
company data, records the error, and ends with the loading flag false. -/
theorem C6_select_missing (id : String) (st : CtxState) (h : (id == "") = false) :
    (selectCompany id st .missing).2 = .error "Company not found" ∧
    (selectCompany id st .missing).1.selectedId = none ∧
    (selectCompany id st .missing).1.companyData = initialCompanyData ∧
    (selectCompany id st .missing).1.loading = false ∧
    (selectCompany id st .missing).1.error = some "Failed to select company" := by
  simp [selectCompany, h]

/-- C6 (witness): the theorem applied to the concrete id "ghost" from the
initial provider state. -/
theorem C6_select_missing_witness :
    (selectCompany "ghost" initialCtxState .missing).2 = .error "Company not found" ∧
    (selectCompany "ghost" initialCtxState .missing).1.selectedId = none ∧
    (selectCompany "ghost" initialCtxState .missing).1.companyData = initialCompanyData ∧
    (selectCompany "ghost" initialCtxState .missing).1.loading = false ∧
    (selectCompany "ghost" initialCtxState .missing).1.error =
      some "Failed to select company" :=
  C6_select_missing "ghost" initialCtxState (by decide)

/-- C7: on a companies-subscription transport error the handler records
the shared error; it preserves the local companies list unchanged when
currently offline and clears it when online. -/
theorem C7_companies_error (st : CtxState) :
    (companiesOnError true st).companies = st.companies ∧
    (companiesOnError true st).error = some "Failed to load companies" ∧
    (companiesOnError false st).companies = [] ∧
    (companiesOnError false st).error = some "Failed to load companies" := by
  simp [companiesOnError]

/-- C10: when a company-data subscription notification reports a
non-existent document, the callback performs no state change at all: the
previous snapshot, selection, loading flag and error field all stay as
they were. -/
theorem C10_missing_doc_noop (data : Json) (st : CtxState) :
    companyDataOnSnapshot false data st = st := rfl

/-- C2 (counterexample): the claim says `updateCompanyData` fails with
NotFound, surfaced to the caller, when the target document does not
exist; in the code the `if (companyDoc.exists())` block is silently
skipped: the call resolves normally, performs no write, and leaves the
shared error field clear. -/
theorem C2_counterexample :
    (updateCompanyData emptyPayload sampleState .missing).2.2 = .ok () ∧
    (updateCompanyData emptyPayload sampleState .missing).2.1 = none ∧
    (updateCompanyData emptyPayload sampleState .missing).1.error = none :=
  ⟨rfl, rfl, rfl⟩

/-- C2 (amended): when no company id is resolvable, `updateCompanyData`
records "No company selected" in the shared error field and returns
normally without contacting the remote; on a transport error in the read
or the write it records "Failed to update company data" and rethrows to
the caller; when the target document does not exist it completes silently
with no write, no recorded error and no exception. -/
theorem C2_amended (data : UpdatePayload) (st : CtxState) (current : StoredDoc) :
    (∀ remote, isFalsyId (resolveCompanyId data.id st.selectedId) = true →
      updateCompanyData data st remote =
        ({ st with error := some "No company selected" }, none, .ok ())) ∧
    (isFalsyId (resolveCompanyId data.id st.selectedId) = false →
      ((updateCompanyData data st .fetchFailure).1.error =
          some "Failed to update company data" ∧
        (updateCompanyData data st .fetchFailure).2.2 = .error "transport error" ∧
        (updateCompanyData data st .fetchFailure).1.loading = false) ∧
      ((updateCompanyData data st .missing).1.error = none ∧
        (updateCompanyData data st .missing).2.1 = none ∧
        (updateCompanyData data st .missing).2.2 = .ok () ∧
        (updateCompanyData data st .missing).1.loading = false) ∧
      ((updateCompanyData data st (.present current false)).1.error =
          some "Failed to update company data" ∧
        (updateCompanyData data st (.present current false)).2.2 =
          .error "transport error")) := by
  constructor
  · intro remote h
    simp [updateCompanyData, h]
  · intro h
    refine ⟨?_, ?_, ?_⟩ <;> simp [updateCompanyData, h]

/-- C2 (witness): the amended theorem applied with no resolvable id, and
with a resolvable id against each remote outcome. -/
theorem C2_amended_witness :
    updateCompanyData emptyPayload initialCtxState .missing =
      ({ initialCtxState with error := some "No company selected" }, none, .ok ()) ∧
    (((updateCompanyData emptyPayload sampleState .fetchFailure).1.error =
        some "Failed to update company data" ∧
      (updateCompanyData emptyPayload sampleState .fetchFailure).2.2 =
        .error "transport error" ∧
      (updateCompanyData emptyPayload sampleState .fetchFailure).1.loading = false) ∧
    ((updateCompanyData emptyPayload sampleState .missing).1.error = none ∧
      (updateCompanyData emptyPayload sampleState .missing).2.1 = none ∧
      (updateCompanyData emptyPayload sampleState .missing).2.2 = .ok () ∧
      (updateCompanyData emptyPayload sampleState .missing).1.loading = false) ∧
    ((updateCompanyData emptyPayload sampleState (.present sampleStoredDoc false)).1.error =
        some "Failed to update company data" ∧
      (updateCompanyData emptyPayload sampleState (.present sampleStoredDoc false)).2.2 =
        .error "transport error")) :=
  ⟨(C2_amended emptyPayload initialCtxState sampleStoredDoc).1 .missing rfl,
   (C2_amended emptyPayload sampleState sampleStoredDoc).2 rfl⟩

/-- C8: for an existing target document and a partial payload,
`updateCompanyData` persists the shallow merge of the payload over the
current document: present fields overwrite wholesale (arrays replaced,
not concatenated), absent fields keep the stored value, the
default-Uncategorized repair is applied to the payload's accounts, and
the persisted result is independent of any identifier field in the
payload. -/
theorem C8_update_merge (current : StoredDoc) (data : UpdatePayload) (st : CtxState)
    (hid : isFalsyId (resolveCompanyId data.id st.selectedId) = false) :
    (updateCompanyData data st (.present current true)).2.1 =
      some (stripId (mergeCompanyData current data)) ∧
    (∀ v, data.transactions = some v →
      (stripId (mergeCompanyData current data)).transactions = v) ∧
    (data.transactions = none →
      (stripId (mergeCompanyData current data)).transactions = current.transactions) ∧
    (∀ v, data.categoryRules = some v →
      (stripId (mergeCompanyData current data)).categoryRules = v) ∧
    (data.categoryRules = none →
      (stripId (mergeCompanyData current data)).categoryRules = current.categoryRules) ∧
    (∀ v, data.customers = some v →
      (stripId (mergeCompanyData current data)).customers = v) ∧
    (data.customers = none →
      (stripId (mergeCompanyData current data)).customers = current.customers) ∧
    (∀ v, data.vendors = some v →
      (stripId (mergeCompanyData current data)).vendors = v) ∧
    (data.vendors = none →
      (stripId (mergeCompanyData current data)).vendors = current.vendors) ∧
    (∀ v, data.invoices = some v →
      (stripId (mergeCompanyData current data)).invoices = v) ∧
    (data.invoices = none →
      (stripId (mergeCompanyData current data)).invoices = current.invoices) ∧
    (∀ v, data.bankAccounts = some v →
      (stripId (mergeCompanyData current data)).bankAccounts = v) ∧
    (data.bankAccounts = none →
      (stripId (mergeCompanyData current data)).bankAccounts = current.bankAccounts) ∧
    (∀ v, data.accounts = some v →
      (stripId (mergeCompanyData current data)).accounts = repairAccounts v ∧
      (hasUncat v = false →
        (stripId (mergeCompanyData current data)).accounts =
          defaultUncategorizedAccount :: v)) ∧
    (data.accounts = none →
      (stripId (mergeCompanyData current data)).accounts = current.accounts) ∧
    (∀ i, stripId (mergeCompanyData current { data with id := i }) =
      stripId (mergeCompanyData current data)) := by
  refine ⟨by simp [updateCompanyData, hid], ?_, ?_, ?_, ?_, ?_, ?_, ?_, ?_, ?_, ?_,
    ?_, ?_, ?_, ?_, ?_⟩
  · intro v hv; simp [stripId, mergeCompanyData, hv]
  · intro hv; simp [stripId, mergeCompanyData, hv]
  · intro v hv; simp [stripId, mergeCompanyData, hv]
  · intro hv; simp [stripId, mergeCompanyData, hv]
  · intro v hv; simp [stripId, mergeCompanyData, hv]
  · intro hv; simp [stripId, mergeCompanyData, hv]
  · intro v hv; simp [stripId, mergeCompanyData, hv]
  · intro hv; simp [stripId, mergeCompanyData, hv]
  · intro v hv; simp [stripId, mergeCompanyData, hv]
  · intro hv; simp [stripId, mergeCompanyData, hv]
  · intro v hv; simp [stripId, mergeCompanyData, hv]
  · intro hv; simp [stripId, mergeCompanyData, hv]
  · intro v hv
    refine ⟨by simp [stripId, mergeCompanyData, hv], ?_⟩
    intro hu
    simp [stripId, mergeCompanyData, hv, repairAccounts, hu]
  · intro hv; simp [stripId, mergeCompanyData, hv]
  · intro i; rfl

/-- C8 (witness): the theorem applied to the concrete sample document,
payload, and state. -/
theorem C8_update_merge_witness :
    (updateCompanyData samplePayload sampleState (.present sampleStoredDoc true)).2.1 =
      some (stripId (mergeCompanyData sampleStoredDoc samplePayload)) ∧
    (stripId (mergeCompanyData sampleStoredDoc samplePayload)).transactions =
      [Json.str "t2"] ∧
    (stripId (mergeCompanyData sampleStoredDoc samplePayload)).customers =
      sampleStoredDoc.customers ∧
    (stripId (mergeCompanyData sampleStoredDoc samplePayload)).accounts =
      defaultUncategorizedAccount :: [Json.obj [("accountNumber", Json.str "11111")]] := by
  have h := C8_update_merge sampleStoredDoc samplePayload sampleState (by decide)
  exact ⟨h.1, h.2.1 [Json.str "t2"] rfl, h.2.2.2.2.2.2.1 rfl,
    (h.2.2.2.2.2.2.2.2.2.2.2.2.2.1 [Json.obj [("accountNumber", Json.str "11111")]] rfl).2 rfl⟩

/-- C9: `addCompany` with no signed-in user records the Unauthenticated
error and performs no write; with a user it derives the identifier by
slugifying the name (lowercased, whitespace runs become hyphens) plus the
random suffix, writes the new Company together with the default company
data, appends the Company to the local list, and returns the
identifier. -/
theorem C9_addCompany (user : Option String) (name suffix now : String) (st : CtxState) :
    (user = none →
      addCompany user name suffix now st =
        ({ st with error := some "User not authenticated" }, none, none)) ∧
    (∀ uid, user = some uid →
      addCompany user name suffix now st =
        ({ st with
            loading := false, error := none,
            companies := st.companies ++
              [{ id := slugify name ++ "-" ++ suffix, userId := uid, name := name,
                 createdAt := now, lastAccessed := now, bankAccounts := [] }] },
         some ({ id := slugify name ++ "-" ++ suffix, userId := uid, name := name,
                 createdAt := now, lastAccessed := now, bankAccounts := [] },
               initialCompanyData),
         some (slugify name ++ "-" ++ suffix))) := by
  constructor
  · intro h; subst h; rfl
  · intro uid h; subst h; rfl

/-- C9 (witness): the theorem applied with no user and with user "u1" on
the name "Acme Co"; the derived identifier is the concrete slug
"acme-co-ab12". -/
theorem C9_addCompany_witness :
    addCompany none "Acme Co" "ab12" "t0" initialCtxState =
      ({ initialCtxState with error := some "User not authenticated" }, none, none) ∧
    addCompany (some "u1") "Acme Co" "ab12" "t0" initialCtxState =
      ({ initialCtxState with
          loading := false, error := none,
          companies := initialCtxState.companies ++
            [{ id := slugify "Acme Co" ++ "-" ++ "ab12", userId := "u1", name := "Acme Co",
               createdAt := "t0", lastAccessed := "t0", bankAccounts := [] }] },
       some ({ id := slugify "Acme Co" ++ "-" ++ "ab12", userId := "u1", name := "Acme Co",
               createdAt := "t0", lastAccessed := "t0", bankAccounts := [] },
             initialCompanyData),
       some (slugify "Acme Co" ++ "-" ++ "ab12")) ∧
    slugify "Acme Co" ++ "-" ++ "ab12" = "acme-co-ab12" :=
  ⟨(C9_addCompany none "Acme Co" "ab12" "t0" initialCtxState).1 rfl,
   (C9_addCompany (some "u1") "Acme Co" "ab12" "t0" initialCtxState).2 "u1" rfl,
   rfl⟩

/-- C3: adding a rule pattern — a pattern already present (exact,
case-sensitive) for the found category reports a duplicate and mutates
nothing; a new pattern for an existing category is appended while every
rule keeps its place and rules for other categories are untouched; a
pattern for a category with no rule creates exactly one new rule with the
fresh identifier and the singleton pattern list. -/
theorem C3_addToRules (rules : List CategoryRule) (text cat freshId : String)
    (r : CategoryRule) (htext : (text == "") = false) (hcat : (cat == "") = false) :
    (rules.find? (fun q => q.category == cat) = some r →
      r.patterns.contains text = true →
      handleAddToRules rules text cat freshId = .duplicate) ∧
    (rules.find? (fun q => q.category == cat) = some r →
      r.patterns.contains text = false →
      ∃ rules₂, handleAddToRules rules text cat freshId = .updated rules₂ ∧
        rules₂.length = rules.length ∧
        (∀ (i : Nat) (q : CategoryRule), rules[i]? = some q →
          (q.category == cat) = false → rules₂[i]? = some q) ∧
        (∀ (i : Nat) (q : CategoryRule), rules[i]? = some q →
          (q.category == cat) = true →
          rules₂[i]? = some { q with patterns := q.patterns ++ [text] })) ∧
    (rules.find? (fun q => q.category == cat) = none →
      handleAddToRules rules text cat freshId =
        .updated (rules ++ [{ id := freshId, category := cat, patterns := [text] }])) := by
  refine ⟨?_, ?_, ?_⟩
  · intro hf hdup
    have hdup₂ : text ∈ r.patterns := by simpa using hdup
    simp [handleAddToRules, htext, hcat, hf, hdup₂]
  · intro hf hnew
    have hnew₂ : text ∉ r.patterns := by simpa using hnew
    refine ⟨rules.map (fun q =>
      if q.category == cat then { q with patterns := q.patterns ++ [text] } else q),
      ?_, ?_, ?_, ?_⟩
    · simp [handleAddToRules, htext, hcat, hf, hnew₂]
    · simp
    · intro i q hq hne
      rw [List.getElem?_map, hq]
      simp [hne]
      exact fun h => absurd h (by simpa using hne)
    · intro i q hq heq
      rw [List.getElem?_map, hq]
      simp [heq]
      exact fun h => absurd (by simpa using heq) h
  · intro hf
    simp [handleAddToRules, htext, hcat, hf]

/-- C3 (witness): the theorem applied to a concrete one-rule list in each
of the three scenarios. -/
theorem C3_addToRules_witness :
    handleAddToRules [⟨"r1", "5000", ["abc"]⟩] "abc" "5000" "rule-9" = .duplicate ∧
    (∃ rules₂, handleAddToRules [⟨"r1", "5000", ["abc"]⟩] "xyz" "5000" "rule-9" =
        .updated rules₂ ∧
      rules₂.length = [(⟨"r1", "5000", ["abc"]⟩ : CategoryRule)].length ∧
      (∀ (i : Nat) (q : CategoryRule),
        [(⟨"r1", "5000", ["abc"]⟩ : CategoryRule)][i]? = some q →
        (q.category == "5000") = false → rules₂[i]? = some q) ∧
      (∀ (i : Nat) (q : CategoryRule),
        [(⟨"r1", "5000", ["abc"]⟩ : CategoryRule)][i]? = some q →
        (q.category == "5000") = true →
        rules₂[i]? = some { q with patterns := q.patterns ++ ["xyz"] })) ∧
    handleAddToRules [⟨"r1", "5000", ["abc"]⟩] "xyz" "6000" "rule-9" =
      .updated ([⟨"r1", "5000", ["abc"]⟩] ++
        [{ id := "rule-9", category := "6000", patterns := ["xyz"] }]) :=
  ⟨(C3_addToRules [⟨"r1", "5000", ["abc"]⟩] "abc" "5000" "rule-9"
      ⟨"r1", "5000", ["abc"]⟩ rfl rfl).1 rfl rfl,
   (C3_addToRules [⟨"r1", "5000", ["abc"]⟩] "xyz" "5000" "rule-9"
      ⟨"r1", "5000", ["abc"]⟩ rfl rfl).2.1 rfl rfl,
   (C3_addToRules [⟨"r1", "5000", ["abc"]⟩] "xyz" "6000" "rule-9"
      ⟨"r1", "5000", ["abc"]⟩ rfl rfl).2.2 rfl⟩

theorem matchCategory_none (desc : String) :
    ∀ rules : List CategoryRule,
      (∀ q ∈ rules, ruleMatches desc q = false) → matchCategory desc rules = none := by
  intro rules
  induction rules with
  | nil => intro _; rfl
  | cons a as ih =>
    intro h
    rw [matchCategory, h a (List.mem_cons_self a as)]
    simp only [Bool.false_eq_true, if_false]
    exact ih (fun q hq => h q (List.mem_cons_of_mem _ hq))

theorem matchCategory_first (desc : String) (r : CategoryRule) (post : List CategoryRule)
    (hr : ruleMatches desc r = true) :
    ∀ pre : List CategoryRule,
      (∀ q ∈ pre, ruleMatches desc q = false) →
      matchCategory desc (pre ++ r :: post) = some r.category := by
  intro pre
  induction pre with
  | nil =>
    intro _
    simp [matchCategory, hr]
  | cons a as ih =>
    intro h
    rw [List.cons_append, matchCategory, h a (List.mem_cons_self a as)]
    simp only [Bool.false_eq_true, if_false]
    exact ih (fun q hq => h q (List.mem_cons_of_mem _ hq))

/-- C5: the category rule matcher returns the category of the first rule
in iteration order whose pattern set contains a case-insensitive
substring of the description, and no category when no rule matches.
Modelled from the spec (§4.1): the matcher is not among the source
files. -/
theorem C5_matcher (desc : String) (rules pre post : List CategoryRule) (r : CategoryRule) :
    ((∀ q ∈ rules, ruleMatches desc q = false) → matchCategory desc rules = none) ∧
    ((∀ q ∈ pre, ruleMatches desc q = false) → ruleMatches desc r = true →
      matchCategory desc (pre ++ r :: post) = some r.category) := by
  exact ⟨matchCategory_none desc rules,
    fun hpre hr => matchCategory_first desc r post hr pre hpre⟩

/-- C5 (witness): the theorem applied to two concrete rules for different
categories, with a description matching only the second rule's pattern,
and with a description matching none. -/
theorem C5_matcher_witness :
    matchCategory "zzz" [⟨"r1", "5000", ["costco"]⟩, ⟨"r2", "6000", ["walmart"]⟩] = none ∧
    matchCategory "WALMART STORE"
        ([⟨"r1", "5000", ["costco"]⟩] ++ (⟨"r2", "6000", ["walmart"]⟩ : CategoryRule) :: []) =
      some (⟨"r2", "6000", ["walmart"]⟩ : CategoryRule).category :=
  ⟨(C5_matcher "zzz" [⟨"r1", "5000", ["costco"]⟩, ⟨"r2", "6000", ["walmart"]⟩]
      [] [] ⟨"r2", "6000", ["walmart"]⟩).1 (by decide),
   (C5_matcher "WALMART STORE" [] [⟨"r1", "5000", ["costco"]⟩] []
      ⟨"r2", "6000", ["walmart"]⟩).2 (by decide) (by decide)⟩

end Ddac
